import Mathlib

/-!
Verification development for the glutils OpenGL wrapper library.

The embedding covers:
* `Guard<HandleType>` (include/glutils/guard.hpp): a per-guard state model of
  the member functions, plus a world model of guard populations used to state
  the single-owner / destroy-at-most-once invariant.
* `BufferHandle` (include/glutils/buffer.hpp): the strongly typed enums with
  their underlying `GLenum` values, the bitmask operators, the `Range`
  convenience overloads, and the `bindRanges` batching template.
* `VertexArray` (include/glutils/vertex_array.hpp): the attribute enums and
  `bindVertexBuffer`.

Native OpenGL handles are modelled as `Nat`; the default-constructed
(`HandleType()`) null handle is `0`.  Calls into the OpenGL API are modelled
as values of an explicit `GLCall` type; a wrapper member function is a
function returning the list of GL calls it performs.
-/

namespace Glutils

/-- The default-constructed `HandleType()` value: the null handle. -/
def nullHandle : Nat := 0

/-! ## Per-guard model of `Guard<HandleType>` (guard.hpp)

A `Guard` object holds a single member `m_handle`.  Member functions that
invoke `HandleType::destroy` return the list of handles destroy was applied
to, in call order. -/

/-- State of a single `Guard<HandleType>` object: its `m_handle` member. -/
structure GuardSt where
  m_handle : Nat
deriving DecidableEq

/-- `Guard(Args... args) : m_handle(HandleType::create(args...))` — the
forwarding constructor stores exactly the result of `HandleType::create`. -/
def guardCtorCreate (create : List Nat → Nat) (args : List Nat) : GuardSt :=
  ⟨create args⟩

/-- `explicit Guard(HandleType handle) : m_handle(handle)`. -/
def guardCtorHandle (h : Nat) : GuardSt := ⟨h⟩

/-- `~Guard() { HandleType::destroy(m_handle); }` — returns the handles
destroy is invoked on. -/
def guardDtor (g : GuardSt) : List Nat := [g.m_handle]

/-- `release()`: `auto copy = m_handle; m_handle = HandleType(); return copy;`
Returns the copy and the updated guard; destroys nothing. -/
def GuardSt.release (g : GuardSt) : Nat × GuardSt :=
  (g.m_handle, ⟨nullHandle⟩)

/-- `reset(new_handle)`: `HandleType::destroy(m_handle); m_handle = new_handle;`
Returns the updated guard and the handles destroy is invoked on. -/
def GuardSt.reset (g : GuardSt) (new_handle : Nat) : GuardSt × List Nat :=
  (⟨new_handle⟩, [g.m_handle])

/-- `Guard(Guard&& other) : m_handle(other.release())` — returns
(the new guard, `other` after the move); destroys nothing. -/
def guardMoveCtor (other : GuardSt) : GuardSt × GuardSt :=
  let r := other.release
  (⟨r.1⟩, r.2)

/-- `operator=(Guard&& other) { reset(other.release()); }` for two distinct
guard objects — returns (`*this` after, `other` after, destroyed handles).
`other.release()` runs first, then `reset` on `*this`. -/
def guardMoveAssign (dst src : GuardSt) : GuardSt × GuardSt × List Nat :=
  let r := src.release
  let q := dst.reset r.1
  (q.1, r.2, q.2)

/-- `g = std::move(g)`: `reset(other.release())` where `other` aliases
`*this`.  `release()` first nulls `m_handle` and returns the copy; `reset`
then destroys the now-null member and stores the copy back. -/
def guardMoveAssignSelf (g : GuardSt) : GuardSt × List Nat :=
  let r := g.release
  let q := r.2.reset r.1
  (q.1, q.2)

/-! ## World model for the ownership invariant

A world is a population of live guards (each represented by its `m_handle`
member) together with the multiset of handles `HandleType::destroy` has been
invoked on so far.  Steps mirror the operations available on guards in the
source; handles enter the world only through constructors or `reset`, and a
non-null handle entering must be fresh (this models `HandleType::create`
returning a new native handle, and the caller handing an exclusively owned
handle to `Guard(HandleType)` / `reset`). -/

/-- A population of `Guard` objects and the record of destroy calls. -/
structure GuardWorld where
  guards : Multiset (Option Nat)
  destroyed : Multiset Nat

/-- Number of live guards whose `m_handle` equals `h`. -/
def owners (w : GuardWorld) (h : Nat) : Nat := w.guards.count (some h)

/-- Number of times `HandleType::destroy` has been invoked on `h`. -/
def destroyedCount (w : GuardWorld) (h : Nat) : Nat := w.destroyed.count h

/-- A handle may enter the world if it is the null handle or if it is
currently unowned and was never destroyed. -/
def freshFor (w : GuardWorld) (h : Nat) : Prop :=
  h = nullHandle ∨ (owners w h = 0 ∧ destroyedCount w h = 0)

/-- One operation on the guard population, mirroring guard.hpp. -/
inductive Step : GuardWorld → GuardWorld → Prop
  /-- Construction (`Guard(Args...)` with a fresh handle from
  `HandleType::create`, or `explicit Guard(HandleType)` with an exclusively
  owned or null handle). -/
  | ctor (h : Nat) (w : GuardWorld) (pre : freshFor w h) :
      Step w ⟨some h ::ₘ w.guards, w.destroyed⟩
  /-- Move construction from a live guard holding `h`: the new guard takes
  `h`, the source is left with the null handle, nothing is destroyed. -/
  | moveCtor (h : Nat) (g : Multiset (Option Nat)) (d : Multiset Nat) :
      Step ⟨some h ::ₘ g, d⟩ ⟨some h ::ₘ some nullHandle ::ₘ g, d⟩
  /-- Move assignment between two distinct live guards (destination holds
  `hd`, source holds `hs`): the source is released first, then the
  destination is reset, destroying `hd`. -/
  | moveAssign (hd hs : Nat) (g : Multiset (Option Nat)) (d : Multiset Nat) :
      Step ⟨some hd ::ₘ some hs ::ₘ g, d⟩
        ⟨some hs ::ₘ some nullHandle ::ₘ g, hd ::ₘ d⟩
  /-- Self move assignment: `release()` nulls the member before `reset`
  destroys it, so only the null handle is destroyed and the guard keeps
  its handle. -/
  | moveAssignSelf (h : Nat) (g : Multiset (Option Nat)) (d : Multiset Nat) :
      Step ⟨some h ::ₘ g, d⟩ ⟨some h ::ₘ g, nullHandle ::ₘ d⟩
  /-- `release()` on a live guard: the guard is left with the null handle
  and nothing is destroyed (the handle leaves the managed world). -/
  | release (h : Nat) (g : Multiset (Option Nat)) (d : Multiset Nat) :
      Step ⟨some h ::ₘ g, d⟩ ⟨some nullHandle ::ₘ g, d⟩
  /-- `reset(h2)` on a live guard holding `h`: destroys `h` and stores `h2`,
  which must be null or exclusively owned by the caller. -/
  | reset (h h2 : Nat) (g : Multiset (Option Nat)) (d : Multiset Nat)
      (pre : freshFor ⟨some h ::ₘ g, d⟩ h2) :
      Step ⟨some h ::ₘ g, d⟩ ⟨some h2 ::ₘ g, h ::ₘ d⟩
  /-- Destruction of a live guard holding `h`: destroys `h`. -/
  | destruct (h : Nat) (g : Multiset (Option Nat)) (d : Multiset Nat) :
      Step ⟨some h ::ₘ g, d⟩ ⟨g, h ::ₘ d⟩

/-- Worlds reachable from the empty population by guard operations. -/
inductive Reachable : GuardWorld → Prop
  | init : Reachable ⟨0, 0⟩
  | next {w w' : GuardWorld} : Reachable w → Step w w' → Reachable w'

/-- The ownership invariant: every non-null handle has at most one live
owner and has been destroyed at most once, and never both. -/
def SingleOwner (w : GuardWorld) : Prop :=
  ∀ h : Nat, h ≠ nullHandle → owners w h + destroyedCount w h ≤ 1

/-! ## OpenGL constants

Values of the `GL_*` constants referenced by the wrapper, as fixed by the
OpenGL registry (provided to the C++ code by the glad loader headers). -/

def GL_BUFFER_ACCESS : Nat := 0x88BB
def GL_BUFFER_ACCESS_FLAGS : Nat := 0x911F
def GL_BUFFER_IMMUTABLE_STORAGE : Nat := 0x821F
def GL_BUFFER_MAPPED : Nat := 0x88BC
def GL_BUFFER_MAP_LENGTH : Nat := 0x9120
def GL_BUFFER_MAP_OFFSET : Nat := 0x9121
def GL_BUFFER_SIZE : Nat := 0x8764
def GL_BUFFER_STORAGE_FLAGS : Nat := 0x8220
def GL_BUFFER_USAGE : Nat := 0x8765

def GL_READ_ONLY : Nat := 0x88B8
def GL_WRITE_ONLY : Nat := 0x88B9
def GL_READ_WRITE : Nat := 0x88BA

def GL_MAP_READ_BIT : Nat := 0x0001
def GL_MAP_WRITE_BIT : Nat := 0x0002
def GL_MAP_INVALIDATE_RANGE_BIT : Nat := 0x0004
def GL_MAP_INVALIDATE_BUFFER_BIT : Nat := 0x0008
def GL_MAP_FLUSH_EXPLICIT_BIT : Nat := 0x0010
def GL_MAP_UNSYNCHRONIZED_BIT : Nat := 0x0020
def GL_MAP_PERSISTENT_BIT : Nat := 0x0040
def GL_MAP_COHERENT_BIT : Nat := 0x0080

def GL_DYNAMIC_STORAGE_BIT : Nat := 0x0100
def GL_CLIENT_STORAGE_BIT : Nat := 0x0200

def GL_STREAM_DRAW : Nat := 0x88E0
def GL_STREAM_READ : Nat := 0x88E1
def GL_STREAM_COPY : Nat := 0x88E2
def GL_STATIC_DRAW : Nat := 0x88E4
def GL_STATIC_READ : Nat := 0x88E5
def GL_STATIC_COPY : Nat := 0x88E6
def GL_DYNAMIC_DRAW : Nat := 0x88E8
def GL_DYNAMIC_READ : Nat := 0x88E9
def GL_DYNAMIC_COPY : Nat := 0x88EA

def GL_ATOMIC_COUNTER_BUFFER : Nat := 0x92C0
def GL_TRANSFORM_FEEDBACK_BUFFER : Nat := 0x8C8E
def GL_UNIFORM_BUFFER : Nat := 0x8A11
def GL_SHADER_STORAGE_BUFFER : Nat := 0x90D2

def GL_BYTE : Nat := 0x1400
def GL_UNSIGNED_BYTE : Nat := 0x1401
def GL_SHORT : Nat := 0x1402
def GL_UNSIGNED_SHORT : Nat := 0x1403
def GL_INT : Nat := 0x1404
def GL_UNSIGNED_INT : Nat := 0x1405
def GL_FLOAT : Nat := 0x1406
def GL_DOUBLE : Nat := 0x140A
def GL_HALF_FLOAT : Nat := 0x140B
def GL_FIXED : Nat := 0x140C
def GL_INT_2_10_10_10_REV : Nat := 0x8D9F
def GL_UNSIGNED_INT_2_10_10_10_REV : Nat := 0x8368
def GL_UNSIGNED_INT_10F_11F_11F_REV : Nat := 0x8C3B

/-! ## BufferHandle (buffer.hpp)

`BufferHandle` inherits from `Handle`, whose only data member is the GL
object name. -/

/-- A `BufferHandle`: a typed wrapper around the `GLuint` object name. -/
structure BufferHandle where
  name : Nat
deriving DecidableEq

/-- `Handle::getName()` — the raw GL object name. -/
def BufferHandle.getName (b : BufferHandle) : Nat := b.name

/-- `BufferHandle::Range`: a memory range within a buffer, both fields
defaulting to zero. -/
structure BufferHandle.Range where
  offset : Int := 0
  size : Int := 0
deriving DecidableEq

/-- `enum class BufferHandle::Parameter : GLenum`. -/
inductive BufferHandle.Parameter
  | Access | AccessFlags | Immutable | Mapped | MapLength | MapOffset
  | Size | StorageFlags | Usage
deriving DecidableEq

/-- Underlying `GLenum` values of `BufferHandle::Parameter`, as written in
buffer.hpp. -/
def BufferHandle.Parameter.val : BufferHandle.Parameter → Nat
  | .Access => 0x88BB
  | .AccessFlags => 0x911F
  | .Immutable => 0x821F
  | .Mapped => 0x88BC
  | .MapLength => 0x9120
  | .MapOffset => 0x9121
  | .Size => 0x8764
  | .StorageFlags => 0x8220
  | .Usage => 0x8765

/-- The OpenGL constant each `Parameter` enumerator stands in for. -/
def BufferHandle.Parameter.glConstant : BufferHandle.Parameter → Nat
  | .Access => GL_BUFFER_ACCESS
  | .AccessFlags => GL_BUFFER_ACCESS_FLAGS
  | .Immutable => GL_BUFFER_IMMUTABLE_STORAGE
  | .Mapped => GL_BUFFER_MAPPED
  | .MapLength => GL_BUFFER_MAP_LENGTH
  | .MapOffset => GL_BUFFER_MAP_OFFSET
  | .Size => GL_BUFFER_SIZE
  | .StorageFlags => GL_BUFFER_STORAGE_FLAGS
  | .Usage => GL_BUFFER_USAGE

/-- `enum class BufferHandle::AccessMode : GLenum`. -/
inductive BufferHandle.AccessMode
  | read_only | write_only | read_write
deriving DecidableEq

/-- Underlying `GLenum` values of `BufferHandle::AccessMode`. -/
def BufferHandle.AccessMode.val : BufferHandle.AccessMode → Nat
  | .read_only => 0x88B8
  | .write_only => 0x88B9
  | .read_write => 0x88BA

/-- The OpenGL constant each `AccessMode` enumerator stands in for. -/
def BufferHandle.AccessMode.glConstant : BufferHandle.AccessMode → Nat
  | .read_only => GL_READ_ONLY
  | .write_only => GL_WRITE_ONLY
  | .read_write => GL_READ_WRITE

/-- `enum class BufferHandle::AccessFlags : GLenum`. -/
inductive BufferHandle.AccessFlags
  | none | read | write | persistent | coherent
  | invalidate_range | invalidate_buffer | flush_explicit | unsynchronized
deriving DecidableEq

/-- Underlying `GLenum` values of `BufferHandle::AccessFlags`. -/
def BufferHandle.AccessFlags.val : BufferHandle.AccessFlags → Nat
  | .none => 0x0000
  | .read => 0x0001
  | .write => 0x0002
  | .persistent => 0x0040
  | .coherent => 0x0080
  | .invalidate_range => 0x0004
  | .invalidate_buffer => 0x0008
  | .flush_explicit => 0x0010
  | .unsynchronized => 0x0020

/-- The OpenGL constant each `AccessFlags` enumerator stands in for
(`none` is the empty bitfield). -/
def BufferHandle.AccessFlags.glConstant : BufferHandle.AccessFlags → Nat
  | .none => 0
  | .read => GL_MAP_READ_BIT
  | .write => GL_MAP_WRITE_BIT
  | .persistent => GL_MAP_PERSISTENT_BIT
  | .coherent => GL_MAP_COHERENT_BIT
  | .invalidate_range => GL_MAP_INVALIDATE_RANGE_BIT
  | .invalidate_buffer => GL_MAP_INVALIDATE_BUFFER_BIT
  | .flush_explicit => GL_MAP_FLUSH_EXPLICIT_BIT
  | .unsynchronized => GL_MAP_UNSYNCHRONIZED_BIT

/-- `enum class BufferHandle::Usage : GLenum`. -/
inductive BufferHandle.Usage
  | static_draw | static_read | static_copy
  | dynamic_draw | dynamic_read | dynamic_copy
  | stream_draw | stream_read | stream_copy
deriving DecidableEq

/-- Underlying `GLenum` values of `BufferHandle::Usage`. -/
def BufferHandle.Usage.val : BufferHandle.Usage → Nat
  | .static_draw => 0x88E4
  | .static_read => 0x88E5
  | .static_copy => 0x88E6
  | .dynamic_draw => 0x88E8
  | .dynamic_read => 0x88E9
  | .dynamic_copy => 0x88EA
  | .stream_draw => 0x88E0
  | .stream_read => 0x88E1
  | .stream_copy => 0x88E2

/-- The OpenGL constant each `Usage` enumerator stands in for. -/
def BufferHandle.Usage.glConstant : BufferHandle.Usage → Nat
  | .static_draw => GL_STATIC_DRAW
  | .static_read => GL_STATIC_READ
  | .static_copy => GL_STATIC_COPY
  | .dynamic_draw => GL_DYNAMIC_DRAW
  | .dynamic_read => GL_DYNAMIC_READ
  | .dynamic_copy => GL_DYNAMIC_COPY
  | .stream_draw => GL_STREAM_DRAW
  | .stream_read => GL_STREAM_READ
  | .stream_copy => GL_STREAM_COPY

/-- `enum class BufferHandle::StorageFlags : GLenum`. -/
inductive BufferHandle.StorageFlags
  | none | dynamic_storage | map_read | map_write
  | map_persistent | map_coherent | client_storage
deriving DecidableEq

/-- Underlying `GLenum` values of `BufferHandle::StorageFlags`. -/
def BufferHandle.StorageFlags.val : BufferHandle.StorageFlags → Nat
  | .none => 0x0000
  | .dynamic_storage => 0x0100
  | .map_read => 0x0001
  | .map_write => 0x0002
  | .map_persistent => 0x0040
  | .map_coherent => 0x0080
  | .client_storage => 0x0200

/-- The OpenGL constant each `StorageFlags` enumerator stands in for
(`none` is the empty bitfield). -/
def BufferHandle.StorageFlags.glConstant : BufferHandle.StorageFlags → Nat
  | .none => 0
  | .dynamic_storage => GL_DYNAMIC_STORAGE_BIT
  | .map_read => GL_MAP_READ_BIT
  | .map_write => GL_MAP_WRITE_BIT
  | .map_persistent => GL_MAP_PERSISTENT_BIT
  | .map_coherent => GL_MAP_COHERENT_BIT
  | .client_storage => GL_CLIENT_STORAGE_BIT

/-- `enum class BufferHandle::IndexedTarget : GLenum`. -/
inductive BufferHandle.IndexedTarget
  | atomic_counter | transform_feedback | uniform | shader_storage
deriving DecidableEq

/-- Underlying `GLenum` values of `BufferHandle::IndexedTarget`. -/
def BufferHandle.IndexedTarget.val : BufferHandle.IndexedTarget → Nat
  | .atomic_counter => 0x92C0
  | .transform_feedback => 0x8C8E
  | .uniform => 0x8A11
  | .shader_storage => 0x90D2

/-- The OpenGL constant each `IndexedTarget` enumerator stands in for. -/
def BufferHandle.IndexedTarget.glConstant : BufferHandle.IndexedTarget → Nat
  | .atomic_counter => GL_ATOMIC_COUNTER_BUFFER
  | .transform_feedback => GL_TRANSFORM_FEEDBACK_BUFFER
  | .uniform => GL_UNIFORM_BUFFER
  | .shader_storage => GL_SHADER_STORAGE_BUFFER

/-! ## VertexArray attribute enums (vertex_array.hpp) -/

/-- `enum class VertexArray::AttribSize`. -/
inductive VertexArrayAttribSize
  | one | two | three | four
deriving DecidableEq

/-- Underlying values of `VertexArray::AttribSize`, as written in
vertex_array.hpp. -/
def VertexArrayAttribSize.val : VertexArrayAttribSize → Nat
  | .one => 1
  | .two => 2
  | .three => 3
  | .four => 4

/-- The value each `AttribSize` enumerator stands in for: the component
count itself. -/
def VertexArrayAttribSize.glConstant : VertexArrayAttribSize → Nat
  | .one => 1
  | .two => 2
  | .three => 3
  | .four => 4

/-- `enum class VertexArray::AttribType`; the source initialises each
enumerator directly with the corresponding `GL_*` macro. -/
inductive VertexArrayAttribType
  | byte_ | ubyte_ | short_ | ushort_ | int_ | uint_ | fixed_ | float_
  | half_float_ | double_ | int_2_10_10_10_rev | uint_2_10_10_10_rev
  | uint_10f_11f_11f_rev
deriving DecidableEq

/-- Underlying values of `VertexArray::AttribType`: the source writes
`byte_ = GL_BYTE`, `float_ = GL_FLOAT`, and so on. -/
def VertexArrayAttribType.val : VertexArrayAttribType → Nat
  | .byte_ => GL_BYTE
  | .ubyte_ => GL_UNSIGNED_BYTE
  | .short_ => GL_SHORT
  | .ushort_ => GL_UNSIGNED_SHORT
  | .int_ => GL_INT
  | .uint_ => GL_UNSIGNED_INT
  | .fixed_ => GL_FIXED
  | .float_ => GL_FLOAT
  | .half_float_ => GL_HALF_FLOAT
  | .double_ => GL_DOUBLE
  | .int_2_10_10_10_rev => GL_INT_2_10_10_10_REV
  | .uint_2_10_10_10_rev => GL_UNSIGNED_INT_2_10_10_10_REV
  | .uint_10f_11f_11f_rev => GL_UNSIGNED_INT_10F_11F_11F_REV

/-- The OpenGL constant each `AttribType` enumerator stands in for. -/
def VertexArrayAttribType.glConstant : VertexArrayAttribType → Nat
  | .byte_ => GL_BYTE
  | .ubyte_ => GL_UNSIGNED_BYTE
  | .short_ => GL_SHORT
  | .ushort_ => GL_UNSIGNED_SHORT
  | .int_ => GL_INT
  | .uint_ => GL_UNSIGNED_INT
  | .fixed_ => GL_FIXED
  | .float_ => GL_FLOAT
  | .half_float_ => GL_HALF_FLOAT
  | .double_ => GL_DOUBLE
  | .int_2_10_10_10_rev => GL_INT_2_10_10_10_REV
  | .uint_2_10_10_10_rev => GL_UNSIGNED_INT_2_10_10_10_REV
  | .uint_10f_11f_11f_rev => GL_UNSIGNED_INT_10F_11F_11F_REV

/-! ## Bitmask operators on the flag enums

`operator|` and `operator&` for `BufferHandle::AccessFlags` and
`BufferHandle::StorageFlags` are declared in buffer.hpp; their bodies live
in buffer.cpp.  A flag value (possibly a combination of enumerators) is its
underlying `GLenum`, modelled as `Nat`. -/

/-- Modelled from the spec: the body of `operator|` on
`BufferHandle::AccessFlags` is in buffer.cpp, which is not among the
sources; the spec describes the enum/bitmask algebra on the underlying
`GLenum` bit patterns, so the operator is bitwise OR of the underlying
values. -/
def accessFlagsOr (l r : Nat) : Nat := l ||| r

/-- Modelled from the spec: the body of `operator&` on
`BufferHandle::AccessFlags` is in buffer.cpp (absent); bitwise AND of the
underlying values. -/
def accessFlagsAnd (l r : Nat) : Nat := l &&& r

/-- Modelled from the spec: the body of `operator|` on
`BufferHandle::StorageFlags` is in buffer.cpp (absent); bitwise OR of the
underlying values. -/
def storageFlagsOr (l r : Nat) : Nat := l ||| r

/-- Modelled from the spec: the body of `operator&` on
`BufferHandle::StorageFlags` is in buffer.cpp (absent); bitwise AND of the
underlying values. -/
def storageFlagsAnd (l r : Nat) : Nat := l &&& r

/-! ## GL call model

Each wrapper member function returns the list of OpenGL calls it performs.
Host pointers (`const void*` data arguments) are modelled as opaque `Nat`
addresses. -/

/-- One call into the OpenGL API. -/
inductive GLCall
  | glBufferSubData (buffer : Nat) (offset : Int) (size : Int) (data : Nat)
  | glGetBufferSubData (buffer : Nat) (offset : Int) (size : Int) (data : Nat)
  | glMapBufferRange (buffer : Nat) (offset : Int) (length : Int) (access : Nat)
  | glBindBufferRange (target : Nat) (index : Nat) (buffer : Nat)
      (offset : Int) (size : Int)
  | glBindBuffersRange (target : Nat) (first : Nat) (count : Nat)
      (buffers : List Nat) (offsets : List Int) (sizes : List Int)
  | glVertexArrayVertexBuffer (vaobj : Nat) (binding_index : Nat)
      (buffer : Nat) (offset : Int) (stride : Int)
deriving DecidableEq

/-- Modelled from the spec: `BufferHandle::write(GLintptr, GLsizeiptr,
const void*)` is implemented in buffer.cpp (absent); its documentation says
it wraps `glBufferSubData`. -/
def BufferHandle.write (b : BufferHandle) (offset size : Int) (data : Nat) :
    List GLCall :=
  [.glBufferSubData b.name offset size data]

/-- `write(Range range, const void* data)`: forwards to
`write(range.offset, range.size, data)` (body in buffer.hpp). -/
def BufferHandle.writeRange (b : BufferHandle) (range : BufferHandle.Range)
    (data : Nat) : List GLCall :=
  b.write range.offset range.size data

/-- Modelled from the spec: `BufferHandle::read(GLintptr, GLsizeiptr,
void*)` is implemented in buffer.cpp (absent); its documentation says it
wraps `glGetBufferSubData`. -/
def BufferHandle.read (b : BufferHandle) (offset size : Int) (data : Nat) :
    List GLCall :=
  [.glGetBufferSubData b.name offset size data]

/-- `read(Range range, void* data)`: forwards to
`read(range.offset, range.size, data)` (body in buffer.hpp). -/
def BufferHandle.readRange (b : BufferHandle) (range : BufferHandle.Range)
    (data : Nat) : List GLCall :=
  b.read range.offset range.size data

/-- Modelled from the spec: `BufferHandle::mapRange(GLintptr, GLsizeiptr,
AccessFlags)` is implemented in buffer.cpp (absent); its documentation says
it wraps `glMapBufferRange`. -/
def BufferHandle.mapRange (b : BufferHandle) (offset length : Int)
    (access : Nat) : List GLCall :=
  [.glMapBufferRange b.name offset length access]

/-- `mapRange(Range range, AccessFlags access)`: forwards to
`mapRange(range.offset, range.size, access)` (body in buffer.hpp). -/
def BufferHandle.mapRangeRange (b : BufferHandle)
    (range : BufferHandle.Range) (access : Nat) : List GLCall :=
  b.mapRange range.offset range.size access

/-- Modelled from the spec: `BufferHandle::bindRange(IndexedTarget, GLuint,
GLintptr, GLsizeiptr)` is implemented in buffer.cpp (absent); its
documentation says it wraps `glBindBufferRange`. -/
def BufferHandle.bindRange (b : BufferHandle)
    (target : BufferHandle.IndexedTarget) (index : Nat)
    (offset size : Int) : List GLCall :=
  [.glBindBufferRange target.val index b.name offset size]

/-- `bindRange(IndexedTarget target, GLuint index, Range range)`: forwards
to `bindRange(target, index, range.offset, range.size)` (body in
buffer.hpp). -/
def BufferHandle.bindRangeRange (b : BufferHandle)
    (target : BufferHandle.IndexedTarget) (index : Nat)
    (range : BufferHandle.Range) : List GLCall :=
  b.bindRange target index range.offset range.size

/-! ## `BufferHandle::bindRanges` (template body in buffer.hpp) -/

/-- Modelled from the spec: the private static `s_bindRange` is implemented
in buffer.cpp (absent); per the documentation of `bindRanges` it wraps
`glBindBuffersRange` with the given count and arrays. -/
def BufferHandle.s_bindRange (target : BufferHandle.IndexedTarget)
    (first_binding : Nat) (count : Nat) (buffers : List Nat)
    (offsets : List Int) (sizes : List Int) : List GLCall :=
  [.glBindBuffersRange target.val first_binding count buffers offsets sizes]

/-- The accumulation loop of `bindRanges`: walk the iterator range in order,
appending each element's buffer name, range offset and range size to the
three vectors and incrementing `count`. -/
def bindRangesAccum
    (items : List (BufferHandle × BufferHandle.Range)) :
    List Nat × List Int × List Int × Nat :=
  items.foldl
    (fun acc p =>
      (acc.1 ++ [p.1.getName], acc.2.1 ++ [p.2.offset],
       acc.2.2.1 ++ [p.2.size], acc.2.2.2 + 1))
    ([], [], [], 0)

/-- `BufferHandle::bindRanges(target, first_binding, begin, end)`: build the
arrays by the loop, then make a single `s_bindRange` call. -/
def BufferHandle.bindRanges (target : BufferHandle.IndexedTarget)
    (first_binding : Nat)
    (items : List (BufferHandle × BufferHandle.Range)) : List GLCall :=
  let acc := bindRangesAccum items
  BufferHandle.s_bindRange target first_binding acc.2.2.2 acc.1 acc.2.1
    acc.2.2.1

/-! ## VertexArray::bindVertexBuffer (vertex_array.hpp) -/

/-- A `VertexArray` handle: a typed wrapper around the GL object name. -/
structure VertexArray where
  name : Nat
deriving DecidableEq

/-- `Handle::getName()` for vertex arrays. -/
def VertexArray.getName (v : VertexArray) : Nat := v.name

/-- Modelled from the spec: `VertexArray::bindVertexBuffer(GLuint, Buffer,
GLintptr, GLsizei)` is implemented in vertex_array.cpp (absent); its
documentation says it wraps `glVertexArrayVertexBuffer`, and the `Buffer`
argument contributes only its object name. -/
def VertexArray.bindVertexBuffer (v : VertexArray) (binding_index : Nat)
    (buffer : BufferHandle) (offset : Int) (stride : Int) : List GLCall :=
  [.glVertexArrayVertexBuffer v.name binding_index buffer.getName offset
    stride]

lemma singleOwner_init : SingleOwner ⟨0, 0⟩ := by
  intro h _
  simp [owners, destroyedCount]

lemma count_cons_some (h h' : Nat) (g : Multiset (Option Nat)) :
    (some h' ::ₘ g).count (some h)
      = g.count (some h) + if h = h' then 1 else 0 := by
  by_cases hh : h = h'
  · subst hh
    simp [Multiset.count_cons_self]
  · have : some h ≠ some h' := by simpa using hh
    simp [Multiset.count_cons_of_ne this, hh]

lemma count_cons_nat (h h' : Nat) (d : Multiset Nat) :
    (h' ::ₘ d).count h = d.count h + if h = h' then 1 else 0 := by
  by_cases hh : h = h'
  · subst hh
    simp [Multiset.count_cons_self]
  · simp [Multiset.count_cons_of_ne hh, hh]

lemma singleOwner_step {w w' : GuardWorld} (hw : SingleOwner w)
    (st : Step w w') : SingleOwner w' := by
  cases st with
  | ctor h0 w pre =>
    intro h hnz
    have hold := hw h hnz
    simp only [owners, destroyedCount, freshFor, nullHandle] at hold pre hnz ⊢
    simp only [count_cons_some]
    by_cases hh : h = h0
    · rw [← hh] at pre
      rcases pre with hz | ⟨hown, hdes⟩
      · exact absurd hz hnz
      · simp only [if_pos hh]
        omega
    · simp only [if_neg hh]
      omega
  | moveCtor h0 g d =>
    intro h hnz
    have hold := hw h hnz
    simp only [owners, destroyedCount, nullHandle] at hold hnz ⊢
    simp only [count_cons_some] at hold ⊢
    by_cases hh : h = h0
    · simp only [if_pos hh] at hold
      simp only [if_pos hh, if_neg hnz]
      omega
    · simp only [if_neg hh] at hold
      simp only [if_neg hh, if_neg hnz]
      omega
  | moveAssign hd hs g d =>
    intro h hnz
    have hold := hw h hnz
    simp only [owners, destroyedCount, nullHandle] at hold hnz ⊢
    simp only [count_cons_some, count_cons_nat] at hold ⊢
    by_cases h1 : h = hd
    · by_cases h2 : h = hs
      · simp only [if_pos h1, if_pos h2] at hold
        omega
      · simp only [if_pos h1, if_neg h2] at hold
        simp only [if_pos h1, if_neg h2, if_neg hnz]
        omega
    · by_cases h2 : h = hs
      · simp only [if_neg h1, if_pos h2] at hold
        simp only [if_neg h1, if_pos h2, if_neg hnz]
        omega
      · simp only [if_neg h1, if_neg h2] at hold
        simp only [if_neg h1, if_neg h2, if_neg hnz]
        omega
  | moveAssignSelf h0 g d =>
    intro h hnz
    have hold := hw h hnz
    simp only [owners, destroyedCount, nullHandle] at hold hnz ⊢
    simp only [count_cons_some, count_cons_nat] at hold ⊢
    by_cases hh : h = h0
    · simp only [if_pos hh] at hold
      simp only [if_pos hh, if_neg hnz]
      omega
    · simp only [if_neg hh] at hold
      simp only [if_neg hh, if_neg hnz]
      omega
  | release h0 g d =>
    intro h hnz
    have hold := hw h hnz
    simp only [owners, destroyedCount, nullHandle] at hold hnz ⊢
    simp only [count_cons_some] at hold ⊢
    by_cases hh : h = h0
    · simp only [if_pos hh] at hold
      simp only [if_neg hnz]
      omega
    · simp only [if_neg hh] at hold
      simp only [if_neg hnz]
      omega
  | reset h0 h2 g d pre =>
    intro h hnz
    have hold := hw h hnz
    simp only [owners, destroyedCount, freshFor, nullHandle] at hold pre hnz ⊢
    simp only [count_cons_some, count_cons_nat] at hold pre ⊢
    by_cases hh2 : h = h2
    · rw [← hh2] at pre
      rcases pre with hz | ⟨hown, hdes⟩
      · exact absurd hz hnz
      · by_cases hh0 : h = h0
        · simp only [if_pos hh0] at hown
          omega
        · simp only [if_neg hh0] at hown
          simp only [if_pos hh2, if_neg hh0]
          omega
    · by_cases hh0 : h = h0
      · simp only [if_pos hh0] at hold
        simp only [if_neg hh2, if_pos hh0]
        omega
      · simp only [if_neg hh0] at hold
        simp only [if_neg hh2, if_neg hh0]
        omega
  | destruct h0 g d =>
    intro h hnz
    have hold := hw h hnz
    simp only [owners, destroyedCount, nullHandle] at hold hnz ⊢
    simp only [count_cons_some, count_cons_nat] at hold ⊢
    by_cases hh : h = h0
    · simp only [if_pos hh] at hold
      simp only [if_pos hh]
      omega
    · simp only [if_neg hh] at hold
      simp only [if_neg hh]
      omega

lemma singleOwner_reachable {w : GuardWorld} (hw : Reachable w) :
    SingleOwner w := by
  induction hw with
  | init => exact singleOwner_init
  | next _ st ih => exact singleOwner_step ih st

lemma bindRangesAccum_general
    (items : List (BufferHandle × BufferHandle.Range)) :
    ∀ (bs : List Nat) (os ss : List Int) (n : Nat),
      items.foldl
        (fun acc p =>
          (acc.1 ++ [p.1.getName], acc.2.1 ++ [p.2.offset],
           acc.2.2.1 ++ [p.2.size], acc.2.2.2 + 1))
        (bs, os, ss, n)
      = (bs ++ items.map (fun p => p.1.getName),
         os ++ items.map (fun p => p.2.offset),
         ss ++ items.map (fun p => p.2.size),
         n + items.length) := by
  induction items with
  | nil => intro bs os ss n; simp
  | cons p rest ih =>
    intro bs os ss n
    rw [List.foldl_cons, ih]
    simp [List.append_assoc]
    omega

lemma bindRangesAccum_eq
    (items : List (BufferHandle × BufferHandle.Range)) :
    bindRangesAccum items
      = (items.map (fun p => p.1.getName),
         items.map (fun p => p.2.offset),
         items.map (fun p => p.2.size),
         items.length) := by
  unfold bindRangesAccum
  rw [bindRangesAccum_general]
  simp

/-! ## Claim theorems -/

/-- Claim C1: over every sequence of guard operations (construction, move
construction, move assignment, release, reset, destruction), each non-null
handle has at most one live owning `Guard` at any time and
`HandleType::destroy` is invoked on it at most once over the whole
sequence: in every reachable world the owner count plus the destroy count
of a non-null handle never exceeds one. -/
theorem guard_single_owner_destroyed_once (w : GuardWorld)
    (hw : Reachable w) (h : Nat) (hnz : h ≠ nullHandle) :
    owners w h + destroyedCount w h ≤ 1 :=
  singleOwner_reachable hw h hnz

theorem guard_single_owner_destroyed_once_witness :
    owners ⟨some 5 ::ₘ 0, 0⟩ 5 + destroyedCount ⟨some 5 ::ₘ 0, 0⟩ 5 ≤ 1 :=
  guard_single_owner_destroyed_once ⟨some 5 ::ₘ 0, 0⟩
    (Reachable.next Reachable.init
      (Step.ctor 5 ⟨0, 0⟩
        (Or.inr ⟨by simp [owners], by simp [destroyedCount]⟩)))
    5 (by decide)

/-- Claim C2: the forwarding constructor `Guard(Args...)` stores exactly the
handle returned by `HandleType::create(args...)`, and the destructor invokes
`HandleType::destroy` on the currently stored handle, so the managed
object's lifetime is tied to the guard's construction and destruction. -/
theorem guard_ctor_dtor_lifetime (create : List Nat → Nat)
    (args : List Nat) (g : GuardSt) :
    (guardCtorCreate create args).m_handle = create args ∧
    guardDtor g = [g.m_handle] ∧
    guardDtor (guardCtorCreate create args) = [create args] :=
  ⟨rfl, rfl, rfl⟩

/-- Claim C3: move construction and move assignment transfer ownership: the
destination ends holding the source's old handle, the source is left with
the null handle, move construction destroys nothing, move assignment
destroys exactly the handle the destination held before, and when the two
guards hold different handles the transferred handle is not destroyed by
the move itself. -/
theorem guard_move_transfers_ownership (dst src : GuardSt) :
    ((guardMoveCtor src).1.m_handle = src.m_handle ∧
     (guardMoveCtor src).2.m_handle = nullHandle) ∧
    ((guardMoveAssign dst src).1.m_handle = src.m_handle ∧
     (guardMoveAssign dst src).2.1.m_handle = nullHandle ∧
     (guardMoveAssign dst src).2.2 = [dst.m_handle] ∧
     (dst.m_handle ≠ src.m_handle →
       src.m_handle ∉ (guardMoveAssign dst src).2.2)) := by
  refine ⟨⟨rfl, rfl⟩, rfl, rfl, rfl, ?_⟩
  intro hne
  simp only [guardMoveAssign, GuardSt.release, GuardSt.reset,
    List.mem_singleton]
  exact fun heq => hne heq.symm

theorem guard_move_transfers_ownership_witness :
    (7 : Nat) ∉ (guardMoveAssign ⟨3⟩ ⟨7⟩).2.2 :=
  (guard_move_transfers_ownership ⟨3⟩ ⟨7⟩).2.2.2.2 (by decide)

/-- Claim C4: a guard in the null handle state causes no destruction of any
live resource: its destructor, a move assignment into it, and a reset of it
apply `HandleType::destroy` only to the null handle. -/
theorem guard_null_state_no_destroy (src : GuardSt) (new_handle : Nat) :
    guardDtor ⟨nullHandle⟩ = [nullHandle] ∧
    (guardMoveAssign ⟨nullHandle⟩ src).2.2 = [nullHandle] ∧
    (GuardSt.reset ⟨nullHandle⟩ new_handle).2 = [nullHandle] :=
  ⟨rfl, rfl, rfl⟩

/-- Claim C5: every strongly-typed enumerator's underlying numeric value
equals the OpenGL constant it stands in for, so passing the enum's
underlying value to the wrapped GL entry point is the identity
translation; in particular `Parameter::Size == 0x8764`,
`AccessMode::read_only == 0x88B8`, `StorageFlags::map_read == 0x0001`,
`AttribType::float_ == GL_FLOAT` and `AttribSize::one..four == 1..4`. -/
theorem enum_values_match_gl_constants :
    (∀ p : BufferHandle.Parameter, p.val = p.glConstant) ∧
    (∀ m : BufferHandle.AccessMode, m.val = m.glConstant) ∧
    (∀ f : BufferHandle.AccessFlags, f.val = f.glConstant) ∧
    (∀ u : BufferHandle.Usage, u.val = u.glConstant) ∧
    (∀ s : BufferHandle.StorageFlags, s.val = s.glConstant) ∧
    (∀ t : BufferHandle.IndexedTarget, t.val = t.glConstant) ∧
    (∀ a : VertexArrayAttribSize, a.val = a.glConstant) ∧
    (∀ t : VertexArrayAttribType, t.val = t.glConstant) ∧
    BufferHandle.Parameter.val .Size = 0x8764 ∧
    BufferHandle.AccessMode.val .read_only = 0x88B8 ∧
    BufferHandle.StorageFlags.val .map_read = 0x0001 ∧
    VertexArrayAttribType.val .float_ = GL_FLOAT ∧
    VertexArrayAttribSize.val .one = 1 ∧
    VertexArrayAttribSize.val .four = 4 := by
  refine ⟨?_, ?_, ?_, ?_, ?_, ?_, ?_, ?_, rfl, rfl, rfl, rfl, rfl, rfl⟩ <;>
    intro x <;> cases x <;> rfl

/-- Claim C6: `operator|` and `operator&` on `AccessFlags` and
`StorageFlags` compute exactly the bitwise OR and AND of the underlying
`GLenum` values (bit for bit); both are commutative, and `none` (value 0)
is an identity for `operator|` and a zero for `operator&`. -/
theorem flags_bitwise_algebra (l r : Nat) :
    (∀ i, (accessFlagsOr l r).testBit i = (l.testBit i || r.testBit i)) ∧
    (∀ i, (accessFlagsAnd l r).testBit i = (l.testBit i && r.testBit i)) ∧
    accessFlagsOr l r = accessFlagsOr r l ∧
    accessFlagsAnd l r = accessFlagsAnd r l ∧
    accessFlagsOr l (BufferHandle.AccessFlags.val .none) = l ∧
    accessFlagsAnd l (BufferHandle.AccessFlags.val .none)
      = BufferHandle.AccessFlags.val .none ∧
    (∀ i, (storageFlagsOr l r).testBit i = (l.testBit i || r.testBit i)) ∧
    (∀ i, (storageFlagsAnd l r).testBit i = (l.testBit i && r.testBit i)) ∧
    storageFlagsOr l r = storageFlagsOr r l ∧
    storageFlagsAnd l r = storageFlagsAnd r l ∧
    storageFlagsOr l (BufferHandle.StorageFlags.val .none) = l ∧
    storageFlagsAnd l (BufferHandle.StorageFlags.val .none)
      = BufferHandle.StorageFlags.val .none := by
  refine ⟨fun i => ?_, fun i => ?_, ?_, ?_, ?_, ?_,
    fun i => ?_, fun i => ?_, ?_, ?_, ?_, ?_⟩ <;>
    simp [accessFlagsOr, accessFlagsAnd, storageFlagsOr, storageFlagsAnd,
      BufferHandle.AccessFlags.val, BufferHandle.StorageFlags.val,
      Nat.testBit_lor, Nat.testBit_land, Nat.lor_comm, Nat.land_comm]

/-- Claim C7: each `Range` convenience overload is exactly the base wrapper
method applied to `range.offset` and `range.size` with the same remaining
arguments, and each base wrapper method performs exactly one OpenGL
call. -/
theorem range_overloads_equivalent (b : BufferHandle)
    (range : BufferHandle.Range) (data : Nat) (access : Nat)
    (target : BufferHandle.IndexedTarget) (index : Nat) :
    b.writeRange range data = b.write range.offset range.size data ∧
    b.readRange range data = b.read range.offset range.size data ∧
    b.mapRangeRange range access
      = b.mapRange range.offset range.size access ∧
    b.bindRangeRange target index range
      = b.bindRange target index range.offset range.size ∧
    (b.write range.offset range.size data).length = 1 ∧
    (b.read range.offset range.size data).length = 1 ∧
    (b.mapRange range.offset range.size access).length = 1 ∧
    (b.bindRange target index range.offset range.size).length = 1 :=
  ⟨rfl, rfl, rfl, rfl, rfl, rfl, rfl, rfl⟩

/-- Claim C8: `VertexArray::bindVertexBuffer` makes a single
`glVertexArrayVertexBuffer` call into which the `Buffer` argument
contributes only its handle value (object name): wrapper classes exchange
data only by passing handle values as parameters. -/
theorem bindVertexBuffer_uses_only_handle (v : VertexArray)
    (binding_index : Nat) (buffer : BufferHandle) (offset stride : Int) :
    v.bindVertexBuffer binding_index buffer offset stride
      = [GLCall.glVertexArrayVertexBuffer v.getName binding_index
          buffer.getName offset stride] ∧
    (v.bindVertexBuffer binding_index buffer offset stride).length = 1 :=
  ⟨rfl, rfl⟩

/-- Claim C9: `bindRanges` invokes `s_bindRange` exactly once, with count
equal to the number of elements in the iterator range and with three arrays
listing, in iteration order, each element's buffer name, range offset and
range size; an empty range yields a single call with count zero. -/
theorem bindRanges_single_call (target : BufferHandle.IndexedTarget)
    (first_binding : Nat)
    (items : List (BufferHandle × BufferHandle.Range)) :
    BufferHandle.bindRanges target first_binding items
      = [GLCall.glBindBuffersRange target.val first_binding items.length
          (items.map fun p => p.1.getName)
          (items.map fun p => p.2.offset)
          (items.map fun p => p.2.size)] ∧
    (BufferHandle.bindRanges target first_binding items).length = 1 ∧
    BufferHandle.bindRanges target first_binding []
      = [GLCall.glBindBuffersRange target.val first_binding 0 [] [] []] := by
  refine ⟨?_, ?_, ?_⟩ <;>
    simp [BufferHandle.bindRanges, BufferHandle.s_bindRange,
      bindRangesAccum_eq]

/-- Claim C10: self move assignment `g = std::move(g)` is safe and acts as
the identity: `release()` nulls the member before `reset` destroys it, so
the guard ends up managing the same handle as before, only the null handle
is destroyed, and `HandleType::destroy` is never applied to the live
handle. -/
theorem guard_self_move_identity (g : GuardSt) :
    (guardMoveAssignSelf g).1 = g ∧
    (guardMoveAssignSelf g).2 = [nullHandle] ∧
    (g.m_handle ≠ nullHandle →
      g.m_handle ∉ (guardMoveAssignSelf g).2) := by
  refine ⟨rfl, rfl, ?_⟩
  intro hne
  simpa [guardMoveAssignSelf, GuardSt.release, GuardSt.reset] using hne

theorem guard_self_move_identity_witness :
    (9 : Nat) ∉ (guardMoveAssignSelf ⟨9⟩).2 :=
  (guard_self_move_identity ⟨9⟩).2.2 (by decide)

end Glutils
